import Mathlib

/-!
Verification of the gold-trading-bot core (indicator engine and signal
generator) against its natural-language specification.

The Python source works on pandas/numpy series of IEEE floats.  The
embedding uses exact rationals (`ℚ`) for all numeric values and `Option ℚ`
for entries that the source leaves as NaN (undefined rolling windows,
shifted series).  Comparisons against an undefined value are `False`,
mirroring IEEE NaN comparison semantics; where the source relies on IEEE
division producing `inf` (RSI with zero mean loss) the embedding encodes
the resulting limit value explicitly.  Rational division is total with
`x / 0 = 0`.
-/

namespace GoldBot

/-! ## Configuration constants (src/config.py) -/

def EMA_SHORT_PERIOD : ℕ := 9
def EMA_LONG_PERIOD : ℕ := 21
def RSI_PERIOD : ℕ := 14
def RSI_OVERBOUGHT : ℚ := 70
def RSI_OVERSOLD : ℚ := 30
def WEIGHT_EMA_CROSSOVER : ℚ := 2/5
def WEIGHT_RSI_CONFIRMATION : ℚ := 3/10
def WEIGHT_VOLUME_CONFIRMATION : ℚ := 1/5
def WEIGHT_TREND_STRENGTH : ℚ := 1/10
def STOP_LOSS_ATR_MULTIPLIER : ℚ := 2
def TAKE_PROFIT_RATIO : ℚ := 2

/-! ## EMA (indicators.py, calculate_ema)

`data.ewm(span=period, adjust=False).mean()`: smoothing factor
`α = 2/(span+1)`, first output equals first input, then
`y_t = α·x_t + (1-α)·y_{t-1}`.  pandas requires `span ≥ 1`. -/

def emaFrom (a : ℚ) (prev : ℚ) : List ℚ → List ℚ
  | [] => []
  | x :: rest => (a * x + (1 - a) * prev) :: emaFrom a (a * x + (1 - a) * prev) rest

def calculate_ema (data : List ℚ) (period : ℕ) : List ℚ :=
  match data with
  | [] => []
  | x :: rest => x :: emaFrom (2 / ((period : ℚ) + 1)) x rest

/-! ## RSI (indicators.py, calculate_rsi)

`delta = data.diff()` (NaN at index 0); `delta.where(delta > 0, 0)`
replaces every position where the condition is false -- including the NaN
head, since `NaN > 0` is false -- by 0; both gain and loss are smoothed by
`rolling(window=period).mean()`, defined only where the window is full.
`rs = gain/loss`; `rsi = 100 - 100/(1+rs)`.  With IEEE floats a zero mean
loss yields `rs = inf` hence `rsi = 100` when the mean gain is positive,
and `rs = NaN` hence an undefined value when both means are zero. -/

def pairDiffs : List ℚ → List ℚ
  | [] => []
  | [_] => []
  | x :: y :: rest => (y - x) :: pairDiffs (y :: rest)

def gains (data : List ℚ) : List ℚ :=
  match data with
  | [] => []
  | _ :: _ => 0 :: (pairDiffs data).map (fun d => if 0 < d then d else 0)

def losses (data : List ℚ) : List ℚ :=
  match data with
  | [] => []
  | _ :: _ => 0 :: (pairDiffs data).map (fun d => if d < 0 then -d else 0)

/-- Rolling mean of width `period` at position `t`, defined exactly when the
window is full (pandas default `min_periods = window`, `window ≥ 1`). -/
def rollingMeanAt (period : ℕ) (xs : List ℚ) (t : ℕ) : Option ℚ :=
  if 1 ≤ period ∧ period ≤ t + 1 ∧ t < xs.length then
    some ((((xs.drop (t + 1 - period)).take period).sum) / (period : ℚ))
  else none

/-- RSI value at position `t` of the series returned by `calculate_rsi`. -/
def calculate_rsi (data : List ℚ) (period : ℕ) (t : ℕ) : Option ℚ :=
  match rollingMeanAt period (gains data) t, rollingMeanAt period (losses data) t with
  | some g, some l =>
      if l = 0 then (if g = 0 then none else some 100)
      else some (100 - 100 / (1 + g / l))
  | _, _ => none

/-! ## True range and ATR (indicators.py, calculate_atr)

`close.shift()` leaves NaN at index 0; `np.abs(high - close.shift())` is
therefore NaN at index 0, and `np.maximum` propagates NaN, so the true
range at index 0 is NaN (modelled as `none`).  The ATR is the rolling mean
of the true range. -/

def shiftFrom (prev : ℚ) : List ℚ → List (Option ℚ)
  | [] => []
  | x :: xs => some prev :: shiftFrom x xs

def shiftSeries : List ℚ → List (Option ℚ)
  | [] => []
  | c :: cs => none :: shiftFrom c cs

def tr3 : List ℚ → List ℚ → List (Option ℚ) → List (Option ℚ)
  | hi :: his, lo :: los, c :: cs =>
      (c.map fun cp => max (hi - lo) (max |hi - cp| |lo - cp|)) :: tr3 his los cs
  | _, _, _ => []

def trueRange (highs lows closes : List ℚ) : List (Option ℚ) :=
  tr3 highs lows (shiftSeries closes)

def seqOpt : List (Option ℚ) → Option (List ℚ)
  | [] => some []
  | none :: _ => none
  | some x :: rest => (seqOpt rest).map (fun xs => x :: xs)

/-- Rolling mean over a series with undefined entries: defined exactly when
the window is full and every entry of the window is defined (a NaN inside a
pandas rolling window makes the mean NaN). -/
def rollingMeanOptAt (period : ℕ) (xs : List (Option ℚ)) (t : ℕ) : Option ℚ :=
  if 1 ≤ period ∧ period ≤ t + 1 ∧ t < xs.length then
    match seqOpt ((xs.drop (t + 1 - period)).take period) with
    | some ws => some (ws.sum / (period : ℚ))
    | none => none
  else none

def calculate_atr (highs lows closes : List ℚ) (period t : ℕ) : Option ℚ :=
  rollingMeanOptAt period (trueRange highs lows closes) t

/-! ## EMA crossover (indicators.py, detect_ema_crossover) -/

inductive Cross where
  | BULLISH
  | BEARISH
  | NONE
deriving DecidableEq

structure CrossRes where
  crossover : Cross
  signal_strength : ℚ
  current_separation : Option ℚ
  previous_separation : Option ℚ
deriving DecidableEq

def detect_ema_crossover (emaShort emaLong : List ℚ) : CrossRes :=
  if emaShort.length < 2 ∨ emaLong.length < 2 then
    { crossover := Cross.NONE, signal_strength := 0,
      current_separation := none, previous_separation := none }
  else
    let cs := emaShort.getD (emaShort.length - 1) 0
    let ps := emaShort.getD (emaShort.length - 2) 0
    let cl := emaLong.getD (emaLong.length - 1) 0
    let pl := emaLong.getD (emaLong.length - 2) 0
    if ps ≤ pl ∧ cl < cs then
      { crossover := Cross.BULLISH, signal_strength := min (|cs - cl| / cl * 100) 5,
        current_separation := some |cs - cl|, previous_separation := some |ps - pl| }
    else if pl ≤ ps ∧ cs < cl then
      { crossover := Cross.BEARISH, signal_strength := min (|cs - cl| / cl * 100) 5,
        current_separation := some |cs - cl|, previous_separation := some |ps - pl| }
    else
      { crossover := Cross.NONE, signal_strength := 0,
        current_separation := some |cs - cl|, previous_separation := some |ps - pl| }

/-! ## Signal generator data model (signal_generator.py)

Factor signals are the strings `BUY`/`SELL`/`HOLD`/`NEUTRAL` of the source;
the composite direction is one of `BUY`/`SELL`/`HOLD`; the final record may
also carry `ERROR`.  Reason strings are modelled as tagged values carrying
the numbers the source interpolates into them. -/

inductive Sig where
  | BUY
  | SELL
  | HOLD
  | NEUTRAL
deriving DecidableEq

inductive Dir3 where
  | BUY
  | SELL
  | HOLD
deriving DecidableEq

inductive SigE where
  | BUY
  | SELL
  | HOLD
  | ERROR
deriving DecidableEq

inductive TrendDir where
  | BULLISH
  | BEARISH
  | NEUTRAL
deriving DecidableEq

inductive RsiCond where
  | OVERBOUGHT
  | OVERSOLD
  | NEUTRAL
deriving DecidableEq

inductive VolStatus where
  | HIGH
  | NORMAL
deriving DecidableEq

inductive Reason where
  | emaCrossAbove
  | emaCrossBelow
  | strongBullishTrend (sep : ℚ)
  | strongBearishTrend (sep : ℚ)
  | noEmaSignal
  | rsiOversoldAt (r : Option ℚ)
  | rsiOverboughtAt (r : Option ℚ)
  | rsiMomentumUp (m : Option ℚ)
  | rsiMomentumDown (m : Option ℚ)
  | rsiNeutralAt (r : Option ℚ)
  | highVolumeConfirmation (ratio : ℚ)
  | lowVolumeWarning (ratio : ℚ)
  | normalVolume (ratio : ℚ)
  | priceNearSupport (s : ℚ)
  | priceNearResistance (r : ℚ)
  | priceBetweenLevels (s r : ℚ)
  | strongTrendNote (d : TrendDir)
deriving DecidableEq

structure Component where
  signal : Sig
  strength : ℚ
  reasoning : List Reason
deriving DecidableEq

/-- Indicator snapshot handed from `calculate_all_indicators` to the
analyzers: the scalar fields the signal generator consumes.  Fields that
can be NaN in the source (`rsi.iloc[-1]`, the RSI momentum, `atr.iloc[-1]`)
are `Option ℚ`. -/
structure Snapshot where
  timestamp : ℚ
  current_price : ℚ
  atr_current : Option ℚ
  support : ℚ
  resistance : ℚ
  pivot : ℚ
  recent_high : ℚ
  recent_low : ℚ
  current_volume : ℚ
  average_volume : ℚ
  volume_ratio : ℚ
  is_high_volume : Bool
  trend_direction : TrendDir
  trend_strength : ℚ
  separation_percent : ℚ
  crossover : Cross
  crossover_strength : ℚ
  current_rsi : Option ℚ
  rsi_condition : RsiCond
  rsi_is_overbought : Bool
  rsi_is_oversold : Bool
  rsi_momentum : Option ℚ
deriving DecidableEq

/-- `x < b` for a possibly-NaN `x`: false when undefined (IEEE NaN
comparisons are false). -/
def oLtB (a : Option ℚ) (b : ℚ) : Bool :=
  match a with
  | some x => decide (x < b)
  | none => false

/-- `x > b` for a possibly-NaN `x`: false when undefined. -/
def oGtB (a : Option ℚ) (b : ℚ) : Bool :=
  match a with
  | some x => decide (b < x)
  | none => false

/-- `x ≤ b` for a possibly-NaN `x`: false when undefined. -/
def oLeB (a : Option ℚ) (b : ℚ) : Bool :=
  match a with
  | some x => decide (x ≤ b)
  | none => false

/-- `x ≥ b` for a possibly-NaN `x`: false when undefined. -/
def oGeB (a : Option ℚ) (b : ℚ) : Bool :=
  match a with
  | some x => decide (b ≤ x)
  | none => false

/-! ## Component analyzers (signal_generator.py lines 64-206) -/

def _analyze_ema_signal (s : Snapshot) : Component :=
  match s.crossover with
  | Cross.BULLISH =>
      { signal := Sig.BUY, strength := s.crossover_strength,
        reasoning := [Reason.emaCrossAbove] }
  | Cross.BEARISH =>
      { signal := Sig.SELL, strength := s.crossover_strength,
        reasoning := [Reason.emaCrossBelow] }
  | Cross.NONE =>
      if s.trend_direction = TrendDir.BULLISH ∧ 2 < s.trend_strength then
        { signal := Sig.BUY, strength := s.trend_strength * (1/2),
          reasoning := [Reason.strongBullishTrend s.separation_percent] }
      else if s.trend_direction = TrendDir.BEARISH ∧ 2 < s.trend_strength then
        { signal := Sig.SELL, strength := s.trend_strength * (1/2),
          reasoning := [Reason.strongBearishTrend s.separation_percent] }
      else
        { signal := Sig.HOLD, strength := 0, reasoning := [Reason.noEmaSignal] }

def _analyze_rsi_signal (s : Snapshot) : Component :=
  if s.rsi_is_oversold then
    { signal := Sig.BUY, strength := (RSI_OVERSOLD - s.current_rsi.getD 0) / 10,
      reasoning := [Reason.rsiOversoldAt s.current_rsi] }
  else if s.rsi_is_overbought then
    { signal := Sig.SELL, strength := (s.current_rsi.getD 0 - RSI_OVERBOUGHT) / 10,
      reasoning := [Reason.rsiOverboughtAt s.current_rsi] }
  else if oGtB s.rsi_momentum 5 && oLtB s.current_rsi 60 then
    { signal := Sig.BUY, strength := min (s.rsi_momentum.getD 0 / 10) 2,
      reasoning := [Reason.rsiMomentumUp s.rsi_momentum] }
  else if oLtB s.rsi_momentum (-5) && oGtB s.current_rsi 40 then
    { signal := Sig.SELL, strength := min (|s.rsi_momentum.getD 0| / 10) 2,
      reasoning := [Reason.rsiMomentumDown s.rsi_momentum] }
  else
    { signal := Sig.HOLD, strength := 0, reasoning := [Reason.rsiNeutralAt s.current_rsi] }

def _analyze_volume_signal (s : Snapshot) : Component :=
  if s.is_high_volume then
    { signal := Sig.NEUTRAL, strength := min ((s.volume_ratio - 1) * 2) 3,
      reasoning := [Reason.highVolumeConfirmation s.volume_ratio] }
  else if s.volume_ratio < 1/2 then
    { signal := Sig.NEUTRAL, strength := -1,
      reasoning := [Reason.lowVolumeWarning s.volume_ratio] }
  else
    { signal := Sig.NEUTRAL, strength := 0,
      reasoning := [Reason.normalVolume s.volume_ratio] }

def _analyze_trend_signal (s : Snapshot) : Component :=
  let base : Component :=
    if s.current_price ≤ s.support * (101/100) then
      { signal := Sig.BUY, strength := 2, reasoning := [Reason.priceNearSupport s.support] }
    else if s.resistance * (99/100) ≤ s.current_price then
      { signal := Sig.SELL, strength := 2, reasoning := [Reason.priceNearResistance s.resistance] }
    else
      { signal := Sig.HOLD, strength := 0,
        reasoning := [Reason.priceBetweenLevels s.support s.resistance] }
  if 3 < s.trend_strength then
    { base with reasoning := base.reasoning ++ [Reason.strongTrendNote s.trend_direction] }
  else base

/-! ## Composite signal (signal_generator.py lines 208-268) -/

/-- Weighted contribution of one component to one direction bucket; a
`NEUTRAL` component signal matches no bucket and is excluded. -/
def bucketScore (c : Component) (w : ℚ) (sig : Sig) : ℚ :=
  if c.signal = sig then c.strength * w else 0

def scoreFor (e r v t : Component) (sig : Sig) : ℚ :=
  bucketScore e WEIGHT_EMA_CROSSOVER sig + bucketScore r WEIGHT_RSI_CONFIRMATION sig +
    bucketScore v WEIGHT_VOLUME_CONFIRMATION sig + bucketScore t WEIGHT_TREND_STRENGTH sig

/-- `max(signal_scores, key=signal_scores.get)` over the dict with insertion
order BUY, SELL, HOLD: Python's `max` keeps the current maximum on ties, so
BUY wins ties against SELL and HOLD, and SELL wins ties against HOLD. -/
def maxSignal (b s h : ℚ) : Dir3 :=
  if b < s then (if s < h then Dir3.HOLD else Dir3.SELL)
  else (if b < h then Dir3.HOLD else Dir3.BUY)

def dirScore (b s h : ℚ) : Dir3 → ℚ
  | Dir3.BUY => b
  | Dir3.SELL => s
  | Dir3.HOLD => h

/-- Consensus over the ema, rsi and trend component signals
(`[signals].count(...)`; the list has length 3). -/
def _calculate_signal_consensus (e r t : Component) : ℚ :=
  ((max ([e.signal, r.signal, t.signal].count Sig.BUY)
      (max ([e.signal, r.signal, t.signal].count Sig.SELL)
        ([e.signal, r.signal, t.signal].count Sig.HOLD)) : ℕ) : ℚ) / 3

structure Composite where
  signal : Dir3
  strength : ℚ
  confidence : ℚ
  consensus : ℚ
  score_buy : ℚ
  score_sell : ℚ
  score_hold : ℚ
deriving DecidableEq

def _calculate_composite_signal (e r v t : Component) : Composite :=
  let b := scoreFor e r v t Sig.BUY
  let s := scoreFor e r v t Sig.SELL
  let h := scoreFor e r v t Sig.HOLD
  let w := maxSignal b s h
  let m := dirScore b s h w
  let cons := _calculate_signal_consensus e r t
  { signal := if w ≠ Dir3.HOLD ∧ m < 1 then Dir3.HOLD else w,
    strength := m,
    confidence := min (m * cons) 10,
    consensus := cons,
    score_buy := b, score_sell := s, score_hold := h }

/-! ## Risk levels (signal_generator.py lines 270-313)

`round(x, 2)` on Python floats rounds half to even; `round2` is the exact
rational counterpart. -/

def roundHalfEvenInt (q : ℚ) : ℤ :=
  let f := Int.floor q
  let r := q - (f : ℚ)
  if r < 1/2 then f
  else if 1/2 < r then f + 1
  else if f % 2 = 0 then f else f + 1

def round2 (q : ℚ) : ℚ := ((roundHalfEvenInt (100 * q) : ℤ) : ℚ) / 100

structure RawRisk where
  stop_loss : ℚ
  take_profit : ℚ
  risk_amount : ℚ
  reward_amount : ℚ
  risk_reward_ratio : ℚ
  atr_value : ℚ
deriving DecidableEq

structure RiskLevels where
  stop_loss : ℚ
  take_profit : ℚ
  risk_amount : ℚ
  reward_amount : ℚ
  risk_reward_ratio : ℚ
  atr_value : ℚ
deriving DecidableEq

/-- Stop-loss / take-profit levels before the final `round(_, 2)` calls. -/
def _calculate_risk_levels_raw (price atr support resistance : ℚ) (sig : Dir3) : RawRisk :=
  let dist := atr * STOP_LOSS_ATR_MULTIPLIER
  let levels : ℚ × ℚ :=
    match sig with
    | Dir3.BUY => (max (price - dist) (support * (99/100)), price + dist * TAKE_PROFIT_RATIO)
    | Dir3.SELL => (min (price + dist) (resistance * (101/100)), price - dist * TAKE_PROFIT_RATIO)
    | Dir3.HOLD => (price - dist, price + dist)
  let risk := |price - levels.1|
  let reward := |levels.2 - price|
  { stop_loss := levels.1, take_profit := levels.2, risk_amount := risk,
    reward_amount := reward,
    risk_reward_ratio := if 0 < risk then reward / risk else 0,
    atr_value := atr }

/-- The returned risk record: every numeric field rounded to 2 decimals. -/
def _calculate_risk_levels (price atr support resistance : ℚ) (sig : Dir3) : RiskLevels :=
  let raw := _calculate_risk_levels_raw price atr support resistance sig
  { stop_loss := round2 raw.stop_loss, take_profit := round2 raw.take_profit,
    risk_amount := round2 raw.risk_amount, reward_amount := round2 raw.reward_amount,
    risk_reward_ratio := round2 raw.risk_reward_ratio, atr_value := round2 raw.atr_value }

/-! ## Remaining indicator-engine operations and the snapshot
(indicators.py lines 67-285)

`calculate_all_indicators` computes every indicator inside a `try` block
and returns `{}` on any exception; with all columns present the only
raising operation is `iloc[-1]` on an empty frame, so the embedding fails
exactly on an empty bar list. -/

structure Bar where
  timestamp : ℚ
  openPrice : ℚ
  high : ℚ
  low : ℚ
  close : ℚ
  volume : ℚ
deriving DecidableEq

/-- `series.tail(k)`: the trailing `k` elements (all of them when shorter). -/
def lastN (k : ℕ) (xs : List ℚ) : List ℚ := xs.drop (xs.length - k)

/-- `series.max()` over a non-empty list (callers guarantee non-emptiness;
the empty case would raise in the source). -/
def listMax : List ℚ → ℚ
  | [] => 0
  | x :: xs => xs.foldl max x

def listMin : List ℚ → ℚ
  | [] => 0
  | x :: xs => xs.foldl min x

/-- `series.iloc[-1]` (callers guarantee non-emptiness). -/
def lastD (xs : List ℚ) : ℚ := xs.getD (xs.length - 1) 0

structure SRLevels where
  support : ℚ
  resistance : ℚ
  pivot : ℚ
  recent_high : ℚ
  recent_low : ℚ
deriving DecidableEq

def calculate_support_resistance (highs lows closes : List ℚ) (lookback : ℕ) : SRLevels :=
  let rh := listMax (lastN lookback highs)
  let rl := listMin (lastN lookback lows)
  let cp := lastD closes
  let pivot := (rh + rl + cp) / 3
  { support := 2 * pivot - rh, resistance := 2 * pivot - rl,
    pivot := pivot, recent_high := rh, recent_low := rl }

structure VolumeProfile where
  current_volume : ℚ
  average_volume : ℚ
  volume_ratio : ℚ
  is_high_volume : Bool
deriving DecidableEq

def calculate_volume_profile (volume : List ℚ) (period : ℕ) : VolumeProfile :=
  let recent := lastN period volume
  let avg := recent.sum / (recent.length : ℚ)
  let cur := lastD volume
  let ratio := if 0 < avg then cur / avg else 1
  { current_volume := cur, average_volume := avg, volume_ratio := ratio,
    is_high_volume := decide (3/2 < ratio) }

structure TrendAnalysis where
  direction : TrendDir
  strength : ℚ
  separation_percent : ℚ
  ema_short : ℚ
  ema_long : ℚ
deriving DecidableEq

def calculate_trend_strength (emaShort emaLong : List ℚ) : TrendAnalysis :=
  let cs := lastD emaShort
  let cl := lastD emaLong
  let sep := |cs - cl| / cl * 100
  if cl < cs then
    { direction := TrendDir.BULLISH, strength := min (sep / 2) 5,
      separation_percent := sep, ema_short := cs, ema_long := cl }
  else if cs < cl then
    { direction := TrendDir.BEARISH, strength := min (sep / 2) 5,
      separation_percent := sep, ema_short := cs, ema_long := cl }
  else
    { direction := TrendDir.NEUTRAL, strength := 0,
      separation_percent := sep, ema_short := cs, ema_long := cl }

structure RsiAnalysis where
  current_rsi : Option ℚ
  condition : RsiCond
  signal_bias : Sig
  momentum : Option ℚ
  is_overbought : Bool
  is_oversold : Bool
deriving DecidableEq

/-- The whole RSI series of `calculate_rsi` as a list. -/
def rsiSeries (data : List ℚ) (period : ℕ) : List (Option ℚ) :=
  (List.range data.length).map (fun t => calculate_rsi data period t)

def analyze_rsi_conditions (rsis : List (Option ℚ)) : RsiAnalysis :=
  let cur := rsis.getD (rsis.length - 1) none
  let overB := oGeB cur RSI_OVERBOUGHT
  let overS := oLeB cur RSI_OVERSOLD
  { current_rsi := cur,
    condition := if overB then RsiCond.OVERBOUGHT
      else if overS then RsiCond.OVERSOLD else RsiCond.NEUTRAL,
    signal_bias := if overB then Sig.SELL else if overS then Sig.BUY else Sig.NEUTRAL,
    momentum :=
      if 2 ≤ rsis.length then
        match cur, rsis.getD (rsis.length - 2) none with
        | some a, some b => some (a - b)
        | _, _ => none
      else some 0,
    is_overbought := overB, is_oversold := overS }

def calculate_all_indicators (bars : List Bar) : Option Snapshot :=
  match bars with
  | [] => none
  | _ :: _ =>
    let closes := bars.map (fun b => b.close)
    let highs := bars.map (fun b => b.high)
    let lows := bars.map (fun b => b.low)
    let volumes := bars.map (fun b => b.volume)
    let emaS := calculate_ema closes EMA_SHORT_PERIOD
    let emaL := calculate_ema closes EMA_LONG_PERIOD
    let rsis := rsiSeries closes RSI_PERIOD
    let sr := calculate_support_resistance highs lows closes 20
    let vp := calculate_volume_profile volumes 20
    let ta := calculate_trend_strength emaS emaL
    let ca := detect_ema_crossover emaS emaL
    let ra := analyze_rsi_conditions rsis
    some { timestamp := (bars.map (fun b => b.timestamp)).getD (bars.length - 1) 0,
           current_price := lastD closes,
           atr_current := calculate_atr highs lows closes 14 (closes.length - 1),
           support := sr.support, resistance := sr.resistance, pivot := sr.pivot,
           recent_high := sr.recent_high, recent_low := sr.recent_low,
           current_volume := vp.current_volume, average_volume := vp.average_volume,
           volume_ratio := vp.volume_ratio, is_high_volume := vp.is_high_volume,
           trend_direction := ta.direction, trend_strength := ta.strength,
           separation_percent := ta.separation_percent,
           crossover := ca.crossover, crossover_strength := ca.signal_strength,
           current_rsi := ra.current_rsi, rsi_condition := ra.condition,
           rsi_is_overbought := ra.is_overbought, rsi_is_oversold := ra.is_oversold,
           rsi_momentum := ra.momentum }

/-! ## Final signal assembly (signal_generator.py lines 14-62, 315-358) -/

/-- Risk record produced inside the pipeline, where `atr.iloc[-1]` may be
NaN: a NaN ATR propagates NaN into every level, and the ratio guard
`risk_amount > 0` is false for NaN so the ratio defaults to 0. -/
structure RiskLevelsO where
  stop_loss : Option ℚ
  take_profit : Option ℚ
  risk_amount : Option ℚ
  reward_amount : Option ℚ
  risk_reward_ratio : Option ℚ
  atr_value : Option ℚ
deriving DecidableEq

def riskLevelsFromSnapshot (snap : Snapshot) (sig : Dir3) : RiskLevelsO :=
  match snap.atr_current with
  | some a =>
      let rl := _calculate_risk_levels snap.current_price a snap.support snap.resistance sig
      { stop_loss := some rl.stop_loss, take_profit := some rl.take_profit,
        risk_amount := some rl.risk_amount, reward_amount := some rl.reward_amount,
        risk_reward_ratio := some rl.risk_reward_ratio, atr_value := some rl.atr_value }
  | none =>
      { stop_loss := none, take_profit := none, risk_amount := none,
        reward_amount := none, risk_reward_ratio := some 0, atr_value := none }

structure MarketContext where
  trend_direction : TrendDir
  trend_strength : ℚ
  rsi_condition : RsiCond
  volume_status : VolStatus
  support_level : ℚ
  resistance_level : ℚ
deriving DecidableEq

def _get_market_context (snap : Snapshot) : MarketContext :=
  { trend_direction := snap.trend_direction, trend_strength := snap.trend_strength,
    rsi_condition := snap.rsi_condition,
    volume_status := if snap.is_high_volume then VolStatus.HIGH else VolStatus.NORMAL,
    support_level := snap.support, resistance_level := snap.resistance }

/-- Recommendation text, abstracted to its template and the interpolated
confidence score. -/
inductive Recommendation where
  | strongBuy (score : ℚ)
  | moderateBuy (score : ℚ)
  | weakBuy (score : ℚ)
  | strongSell (score : ℚ)
  | moderateSell (score : ℚ)
  | weakSell (score : ℚ)
  | holdNoOpportunity (score : ℚ)
  | unableToGenerate
deriving DecidableEq

def _generate_recommendation (c : Composite) : Recommendation :=
  match c.signal with
  | Dir3.BUY =>
      if 7 ≤ c.confidence then Recommendation.strongBuy c.confidence
      else if 5 ≤ c.confidence then Recommendation.moderateBuy c.confidence
      else Recommendation.weakBuy c.confidence
  | Dir3.SELL =>
      if 7 ≤ c.confidence then Recommendation.strongSell c.confidence
      else if 5 ≤ c.confidence then Recommendation.moderateSell c.confidence
      else Recommendation.weakSell c.confidence
  | Dir3.HOLD => Recommendation.holdNoOpportunity c.confidence

structure Components where
  ema : Component
  rsi : Component
  volume : Component
  trend : Component
deriving DecidableEq

def Dir3.toSigE : Dir3 → SigE
  | Dir3.BUY => SigE.BUY
  | Dir3.SELL => SigE.SELL
  | Dir3.HOLD => SigE.HOLD

/-- The final signal package.  The error path of the source returns a dict
with only the keys `signal`, `error`, `timestamp`, `recommendation`; the
missing keys are `none` here.  `timestamp` on the error path is
`pd.Timestamp.now()`, the wall-clock time of the call, which the embedding
takes as an explicit input `now`. -/
structure FinalSignal where
  timestamp : ℚ
  signal : SigE
  error : Option String
  current_price : Option ℚ
  signal_strength : Option ℚ
  confidence : Option ℚ
  components : Option Components
  risk_management : Option RiskLevelsO
  market_context : Option MarketContext
  recommendation : Recommendation
deriving DecidableEq

def _create_error_signal (now : ℚ) (msg : String) : FinalSignal :=
  { timestamp := now, signal := SigE.ERROR, error := some msg,
    current_price := none, signal_strength := none, confidence := none,
    components := none, risk_management := none, market_context := none,
    recommendation := Recommendation.unableToGenerate }

def generate_signal (now : ℚ) (bars : List Bar) : FinalSignal :=
  match calculate_all_indicators bars with
  | none => _create_error_signal now ("Failed to calculate indicators")
  | some snap =>
      let e := _analyze_ema_signal snap
      let r := _analyze_rsi_signal snap
      let v := _analyze_volume_signal snap
      let t := _analyze_trend_signal snap
      let comp := _calculate_composite_signal e r v t
      { timestamp := snap.timestamp, signal := comp.signal.toSigE, error := none,
        current_price := some snap.current_price,
        signal_strength := some comp.strength, confidence := some comp.confidence,
        components := some { ema := e, rsi := r, volume := v, trend := t },
        risk_management := some (riskLevelsFromSnapshot snap comp.signal),
        market_context := some (_get_market_context snap),
        recommendation := _generate_recommendation comp }

/-- Equality of two final signals on every field except `timestamp`. -/
def eqExceptTimestamp (a b : FinalSignal) : Prop :=
  a.signal = b.signal ∧ a.error = b.error ∧ a.current_price = b.current_price ∧
    a.signal_strength = b.signal_strength ∧ a.confidence = b.confidence ∧
    a.components = b.components ∧ a.risk_management = b.risk_management ∧
    a.market_context = b.market_context ∧ a.recommendation = b.recommendation

/-! ## Supporting lemmas -/

theorem gains_nonneg (data : List ℚ) : ∀ y ∈ gains data, 0 ≤ y := by
  intro y hy
  cases data with
  | nil => simp [gains] at hy
  | cons x rest =>
    simp only [gains, List.mem_cons, List.mem_map] at hy
    rcases hy with h | ⟨d, _, rfl⟩
    · simp [h]
    · split <;> [linarith; rfl]

theorem losses_nonneg (data : List ℚ) : ∀ y ∈ losses data, 0 ≤ y := by
  intro y hy
  cases data with
  | nil => simp [losses] at hy
  | cons x rest =>
    simp only [losses, List.mem_cons, List.mem_map] at hy
    rcases hy with h | ⟨d, _, rfl⟩
    · simp [h]
    · split <;> [linarith; rfl]

theorem rollingMeanAt_nonneg (period : ℕ) (xs : List ℚ) (t : ℕ) (g : ℚ)
    (hxs : ∀ y ∈ xs, 0 ≤ y) (h : rollingMeanAt period xs t = some g) : 0 ≤ g := by
  unfold rollingMeanAt at h
  split at h
  · rename_i hcond
    have hsum : 0 ≤ (((xs.drop (t + 1 - period)).take period).sum) := by
      apply List.sum_nonneg
      intro y hy
      exact hxs y (List.mem_of_mem_drop (List.mem_of_mem_take hy))
    have hg : g = (((xs.drop (t + 1 - period)).take period).sum) / (period : ℚ) := by
      injection h with h2
      exact h2.symm
    rw [hg]
    positivity
  · exact absurd h (by simp)

theorem emaFrom_const (a v : ℚ) (xs : List ℚ) (hxs : ∀ x ∈ xs, x = v) :
    ∀ y ∈ emaFrom a v xs, y = v := by
  induction xs with
  | nil => intro y hy; simp [emaFrom] at hy
  | cons x rest ih =>
    intro y hy
    have hx : x = v := hxs x (List.mem_cons_self x rest)
    have hv : a * x + (1 - a) * v = v := by rw [hx]; ring
    rw [emaFrom, hv] at hy
    rcases List.mem_cons.mp hy with h | h
    · exact h
    · exact ih (fun z hz => hxs z (List.mem_cons_of_mem x hz)) y h

/-- C4: for a non-empty constant series of value `v` and any period `p ≥ 1`
(pandas requires `span ≥ 1`), `calculate_ema` returns a series whose every
element equals `v`: the first output equals the first input and the EMA
recurrence `α·v + (1-α)·v = v` preserves the constant. -/
theorem ema_constant_series (v : ℚ) (data : List ℚ) (period : ℕ)
    (hp : 1 ≤ period) (hne : data ≠ []) (hconst : ∀ x ∈ data, x = v) :
    calculate_ema data period ≠ [] ∧ ∀ y ∈ calculate_ema data period, y = v := by
  cases data with
  | nil => exact absurd rfl hne
  | cons x rest =>
    have hx : x = v := hconst x (List.mem_cons_self x rest)
    constructor
    · simp [calculate_ema]
    · intro y hy
      rw [calculate_ema] at hy
      rcases List.mem_cons.mp hy with h | h
      · rw [h, hx]
      · rw [hx] at h
        exact emaFrom_const _ v rest
          (fun z hz => hconst z (List.mem_cons_of_mem x hz)) y h

/-- Witness for C4 at a concrete constant series. -/
theorem ema_constant_series_witness :
    calculate_ema [3, 3, 3] 9 ≠ [] ∧ ∀ y ∈ calculate_ema [3, 3, 3] 9, y = 3 :=
  ema_constant_series 3 [3, 3, 3] 9 (by decide) (by simp) (by simp)

/-- C1: wherever the RSI series is defined and the mean loss of the full
rolling window is non-zero, the RSI value is
`100 - 100/(1 + meanGain/meanLoss)` and lies within `[0, 100]`. -/
theorem rsi_defined_in_unit_interval (data : List ℚ) (period t : ℕ) (g l : ℚ)
    (hg : rollingMeanAt period (gains data) t = some g)
    (hl : rollingMeanAt period (losses data) t = some l)
    (hlne : l ≠ 0) :
    calculate_rsi data period t = some (100 - 100 / (1 + g / l)) ∧
      0 ≤ 100 - 100 / (1 + g / l) ∧ 100 - 100 / (1 + g / l) ≤ 100 := by
  have hg0 : 0 ≤ g := rollingMeanAt_nonneg period (gains data) t g (gains_nonneg data) hg
  have hl0 : 0 ≤ l := rollingMeanAt_nonneg period (losses data) t l (losses_nonneg data) hl
  have hlpos : 0 < l := lt_of_le_of_ne hl0 (Ne.symm hlne)
  have hrs : 0 ≤ g / l := div_nonneg hg0 hl0
  have hden : (1 : ℚ) ≤ 1 + g / l := by linarith
  have hfrac_le : 100 / (1 + g / l) ≤ 100 := by
    apply div_le_self (by norm_num) hden
  have hfrac_nonneg : 0 ≤ 100 / (1 + g / l) := by positivity
  refine ⟨?_, by linarith, by linarith⟩
  rw [calculate_rsi, hg, hl]
  simp [hlne]

/-- Witness for C1: series `[1, 2, 1]`, period 2, index 2 gives
mean gain 1/2, mean loss 1/2 and RSI 50. -/
theorem rsi_defined_in_unit_interval_witness :
    calculate_rsi [1, 2, 1] 2 2 = some (100 - 100 / (1 + (1/2 : ℚ) / (1/2))) ∧
      0 ≤ 100 - 100 / (1 + (1/2 : ℚ) / (1/2)) ∧
      100 - 100 / (1 + (1/2 : ℚ) / (1/2)) ≤ 100 :=
  rsi_defined_in_unit_interval [1, 2, 1] 2 2 (1/2) (1/2)
    (by norm_num [rollingMeanAt, gains, pairDiffs])
    (by norm_num [rollingMeanAt, losses, pairDiffs])
    (by norm_num)

theorem getElem_opt_eq_getD (xs : List ℚ) (t : ℕ) (h : t < xs.length) :
    xs[t]? = some (xs.getD t 0) := by
  rw [List.getElem?_eq_getElem h]
  congr 1
  rw [List.getD_eq_getElem?_getD, List.getElem?_eq_getElem h]
  rfl

theorem shiftFrom_getElem (prev : ℚ) (xs : List ℚ) (t : ℕ) (ht : t < xs.length) :
    (shiftFrom prev xs)[t]? = some (some ((prev :: xs).getD t 0)) := by
  induction xs generalizing prev t with
  | nil => simp at ht
  | cons x rest ih =>
    cases t with
    | zero => simp [shiftFrom]
    | succ s =>
      have hs : s < rest.length := by simpa using ht
      simp [shiftFrom, ih x s hs, List.getD]

theorem shiftSeries_getElem_succ (closes : List ℚ) (s : ℕ)
    (hs : s + 1 < closes.length) :
    (shiftSeries closes)[s + 1]? = some (some (closes.getD s 0)) := by
  cases closes with
  | nil => simp at hs
  | cons c cs =>
    have hlen : s < cs.length := by simpa using hs
    simp [shiftSeries, shiftFrom_getElem c cs s hlen, List.getD]

theorem shiftSeries_getElem_zero (closes : List ℚ) (h0 : 0 < closes.length) :
    (shiftSeries closes)[0]? = some none := by
  cases closes with
  | nil => simp at h0
  | cons c cs => simp [shiftSeries]

theorem tr3_getElem (his los : List ℚ) (cs : List (Option ℚ)) (t : ℕ)
    (hi lo : ℚ) (c : Option ℚ)
    (hh : his[t]? = some hi) (hl : los[t]? = some lo) (hc : cs[t]? = some c) :
    (tr3 his los cs)[t]? =
      some (c.map fun cp => max (hi - lo) (max |hi - cp| |lo - cp|)) := by
  induction his generalizing los cs t with
  | nil => simp at hh
  | cons a as ih =>
    cases los with
    | nil => simp at hl
    | cons b bs =>
      cases cs with
      | nil => simp at hc
      | cons d ds =>
        cases t with
        | zero =>
          simp only [List.getElem?_cons_zero, Option.some_inj] at hh hl hc
          subst hh; subst hl; subst hc
          simp [tr3]
        | succ s =>
          simp only [List.getElem?_cons_succ] at hh hl hc
          simp [tr3, ih bs ds s hh hl hc]

/-- C5 counterexample: on the one-bar input `high = [2]`, `low = [1]`,
`close = [1]`, the true range at index 0 is undefined (`none`, the NaN of
the source), not the degenerate value `high_0 - low_0 = 1` the claim
asserts: `close.shift()` is NaN at index 0 and `np.maximum` propagates the
NaN. -/
theorem true_range_index_zero_not_high_minus_low :
    (trueRange [2] [1] [1])[0]? ≠ some (some ((2 : ℚ) - 1)) := by
  simp [trueRange, shiftSeries, shiftFrom, tr3]

/-- C5 (amended): for aligned series, the true range at every index `t ≥ 1`
equals `max(high_t - low_t, max(|high_t - close_{t-1}|, |low_t - close_{t-1}|))`,
while at index 0, where no previous close exists, the true range is
undefined (NaN), not `high_0 - low_0`. -/
theorem true_range_characterization (highs lows closes : List ℚ)
    (hlh : highs.length = closes.length) (hll : lows.length = closes.length) :
    (0 < closes.length → (trueRange highs lows closes)[0]? = some none) ∧
    (∀ t, 1 ≤ t → t < closes.length →
      (trueRange highs lows closes)[t]? =
        some (some (max (highs.getD t 0 - lows.getD t 0)
          (max |highs.getD t 0 - closes.getD (t - 1) 0|
               |lows.getD t 0 - closes.getD (t - 1) 0|)))) := by
  constructor
  · intro h0
    have hh : highs[0]? = some (highs.getD 0 0) :=
      getElem_opt_eq_getD _ _ (by omega)
    have hl : lows[0]? = some (lows.getD 0 0) :=
      getElem_opt_eq_getD _ _ (by omega)
    have hc := shiftSeries_getElem_zero closes h0
    rw [trueRange, tr3_getElem _ _ _ _ _ _ _ hh hl hc]
    simp
  · intro t ht1 htlen
    obtain ⟨s, rfl⟩ : ∃ s, t = s + 1 := ⟨t - 1, by omega⟩
    have hh : highs[s + 1]? = some (highs.getD (s + 1) 0) :=
      getElem_opt_eq_getD _ _ (by omega)
    have hl : lows[s + 1]? = some (lows.getD (s + 1) 0) :=
      getElem_opt_eq_getD _ _ (by omega)
    have hc := shiftSeries_getElem_succ closes s htlen
    rw [trueRange, tr3_getElem _ _ _ _ _ _ _ hh hl hc]
    simp

/-- Witness for the amended C5 at `high = [2, 3]`, `low = [1, 2]`,
`close = [1, 2]`, index 1. -/
theorem true_range_characterization_witness :
    (trueRange [2, 3] [1, 2] [1, 2])[1]? =
      some (some (max ((3 : ℚ) - 2) (max |(3 : ℚ) - 1| |(2 : ℚ) - 1|))) := by
  have h := (true_range_characterization [2, 3] [1, 2] [1, 2]
      (by decide) (by decide)).2 1 (by decide) (by decide)
  simpa [List.getD] using h

theorem dirScore_maxSignal_ge (b s h : ℚ) :
    b ≤ dirScore b s h (maxSignal b s h) ∧ s ≤ dirScore b s h (maxSignal b s h) ∧
      h ≤ dirScore b s h (maxSignal b s h) := by
  unfold maxSignal
  split_ifs with h1 h2 h3 <;> refine ⟨?_, ?_, ?_⟩ <;> simp [dirScore] <;> linarith

theorem analyze_ema_hold_strength (snap : Snapshot)
    (h : (_analyze_ema_signal snap).signal = Sig.HOLD) :
    (_analyze_ema_signal snap).strength = 0 := by
  unfold _analyze_ema_signal at h ⊢
  cases hc : snap.crossover <;> simp only [hc] at h ⊢ <;>
    first
      | (split_ifs at h ⊢ <;> simp_all)
      | simp_all

theorem analyze_rsi_hold_strength (snap : Snapshot)
    (h : (_analyze_rsi_signal snap).signal = Sig.HOLD) :
    (_analyze_rsi_signal snap).strength = 0 := by
  unfold _analyze_rsi_signal at h ⊢
  split_ifs at h ⊢ <;> simp_all

theorem analyze_trend_hold_strength (snap : Snapshot)
    (h : (_analyze_trend_signal snap).signal = Sig.HOLD) :
    (_analyze_trend_signal snap).strength = 0 := by
  unfold _analyze_trend_signal at h ⊢
  split_ifs at h ⊢ <;> simp_all

theorem analyze_volume_neutral (snap : Snapshot) :
    (_analyze_volume_signal snap).signal = Sig.NEUTRAL := by
  unfold _analyze_volume_signal
  split_ifs <;> rfl

theorem consensus_in_unit_interval (e r t : Component) :
    0 ≤ _calculate_signal_consensus e r t ∧ _calculate_signal_consensus e r t ≤ 1 := by
  unfold _calculate_signal_consensus
  constructor
  · positivity
  · rw [div_le_one (by norm_num)]
    have hb := List.count_le_length (a := Sig.BUY) (l := [e.signal, r.signal, t.signal])
    have hs := List.count_le_length (a := Sig.SELL) (l := [e.signal, r.signal, t.signal])
    have hh := List.count_le_length (a := Sig.HOLD) (l := [e.signal, r.signal, t.signal])
    simp only [List.length_cons, List.length_nil] at hb hs hh
    have : max ([e.signal, r.signal, t.signal].count Sig.BUY)
        (max ([e.signal, r.signal, t.signal].count Sig.SELL)
          ([e.signal, r.signal, t.signal].count Sig.HOLD)) ≤ 3 := by
      omega
    exact_mod_cast this

/-- C8: for every snapshot, feeding the four analyzer outputs into the
composite calculation yields a consensus in [0,1] and a confidence in
[0,10].  Every analyzer returns strength 0 in its HOLD branch and the
volume analyzer never votes, so the HOLD bucket is 0 and the winning score
is non-negative; the confidence `min(strength · consensus, 10)` is then
within [0,10]. -/
theorem consensus_confidence_bounds (snap : Snapshot) :
    0 ≤ (_calculate_composite_signal (_analyze_ema_signal snap) (_analyze_rsi_signal snap)
        (_analyze_volume_signal snap) (_analyze_trend_signal snap)).consensus ∧
    (_calculate_composite_signal (_analyze_ema_signal snap) (_analyze_rsi_signal snap)
        (_analyze_volume_signal snap) (_analyze_trend_signal snap)).consensus ≤ 1 ∧
    0 ≤ (_calculate_composite_signal (_analyze_ema_signal snap) (_analyze_rsi_signal snap)
        (_analyze_volume_signal snap) (_analyze_trend_signal snap)).confidence ∧
    (_calculate_composite_signal (_analyze_ema_signal snap) (_analyze_rsi_signal snap)
        (_analyze_volume_signal snap) (_analyze_trend_signal snap)).confidence ≤ 10 := by
  have hcons := consensus_in_unit_interval (_analyze_ema_signal snap)
    (_analyze_rsi_signal snap) (_analyze_trend_signal snap)
  have hhold : scoreFor (_analyze_ema_signal snap) (_analyze_rsi_signal snap)
      (_analyze_volume_signal snap) (_analyze_trend_signal snap) Sig.HOLD = 0 := by
    unfold scoreFor bucketScore
    rw [analyze_volume_neutral snap]
    by_cases he : (_analyze_ema_signal snap).signal = Sig.HOLD <;>
      by_cases hr : (_analyze_rsi_signal snap).signal = Sig.HOLD <;>
      by_cases ht : (_analyze_trend_signal snap).signal = Sig.HOLD <;>
      simp [he, hr, ht,
        analyze_ema_hold_strength snap, analyze_rsi_hold_strength snap,
        analyze_trend_hold_strength snap]
  have hm : 0 ≤ dirScore
      (scoreFor (_analyze_ema_signal snap) (_analyze_rsi_signal snap)
        (_analyze_volume_signal snap) (_analyze_trend_signal snap) Sig.BUY)
      (scoreFor (_analyze_ema_signal snap) (_analyze_rsi_signal snap)
        (_analyze_volume_signal snap) (_analyze_trend_signal snap) Sig.SELL)
      (scoreFor (_analyze_ema_signal snap) (_analyze_rsi_signal snap)
        (_analyze_volume_signal snap) (_analyze_trend_signal snap) Sig.HOLD)
      (maxSignal
        (scoreFor (_analyze_ema_signal snap) (_analyze_rsi_signal snap)
          (_analyze_volume_signal snap) (_analyze_trend_signal snap) Sig.BUY)
        (scoreFor (_analyze_ema_signal snap) (_analyze_rsi_signal snap)
          (_analyze_volume_signal snap) (_analyze_trend_signal snap) Sig.SELL)
        (scoreFor (_analyze_ema_signal snap) (_analyze_rsi_signal snap)
          (_analyze_volume_signal snap) (_analyze_trend_signal snap) Sig.HOLD)) :=
    le_trans (le_of_eq hhold.symm) (dirScore_maxSignal_ge
      (scoreFor (_analyze_ema_signal snap) (_analyze_rsi_signal snap)
        (_analyze_volume_signal snap) (_analyze_trend_signal snap) Sig.BUY)
      (scoreFor (_analyze_ema_signal snap) (_analyze_rsi_signal snap)
        (_analyze_volume_signal snap) (_analyze_trend_signal snap) Sig.SELL)
      (scoreFor (_analyze_ema_signal snap) (_analyze_rsi_signal snap)
        (_analyze_volume_signal snap) (_analyze_trend_signal snap) Sig.HOLD)).2.2
  refine ⟨hcons.1, hcons.2, ?_, ?_⟩
  · simp only [_calculate_composite_signal]
    exact le_min (mul_nonneg hm hcons.1) (by norm_num)
  · simp only [_calculate_composite_signal]
    exact min_le_right _ _

/-- C7: using Python's `max` tie-breaking over the score dict (BUY beats
SELL beats HOLD on ties), the winning bucket's score is the maximum of the
three scores; if the winner is not HOLD but its score is below 1.0 the
composite signal is forced to HOLD while the strength keeps that score,
otherwise the composite signal is the winner with that score as
strength. -/
theorem composite_activation_threshold (e r v t : Component) :
    (scoreFor e r v t Sig.BUY ≤ dirScore (scoreFor e r v t Sig.BUY)
        (scoreFor e r v t Sig.SELL) (scoreFor e r v t Sig.HOLD)
        (maxSignal (scoreFor e r v t Sig.BUY) (scoreFor e r v t Sig.SELL)
          (scoreFor e r v t Sig.HOLD)) ∧
      scoreFor e r v t Sig.SELL ≤ dirScore (scoreFor e r v t Sig.BUY)
        (scoreFor e r v t Sig.SELL) (scoreFor e r v t Sig.HOLD)
        (maxSignal (scoreFor e r v t Sig.BUY) (scoreFor e r v t Sig.SELL)
          (scoreFor e r v t Sig.HOLD)) ∧
      scoreFor e r v t Sig.HOLD ≤ dirScore (scoreFor e r v t Sig.BUY)
        (scoreFor e r v t Sig.SELL) (scoreFor e r v t Sig.HOLD)
        (maxSignal (scoreFor e r v t Sig.BUY) (scoreFor e r v t Sig.SELL)
          (scoreFor e r v t Sig.HOLD))) ∧
    ((maxSignal (scoreFor e r v t Sig.BUY) (scoreFor e r v t Sig.SELL)
        (scoreFor e r v t Sig.HOLD) ≠ Dir3.HOLD ∧
      dirScore (scoreFor e r v t Sig.BUY) (scoreFor e r v t Sig.SELL)
        (scoreFor e r v t Sig.HOLD)
        (maxSignal (scoreFor e r v t Sig.BUY) (scoreFor e r v t Sig.SELL)
          (scoreFor e r v t Sig.HOLD)) < 1) →
      (_calculate_composite_signal e r v t).signal = Dir3.HOLD) ∧
    (¬ (maxSignal (scoreFor e r v t Sig.BUY) (scoreFor e r v t Sig.SELL)
        (scoreFor e r v t Sig.HOLD) ≠ Dir3.HOLD ∧
      dirScore (scoreFor e r v t Sig.BUY) (scoreFor e r v t Sig.SELL)
        (scoreFor e r v t Sig.HOLD)
        (maxSignal (scoreFor e r v t Sig.BUY) (scoreFor e r v t Sig.SELL)
          (scoreFor e r v t Sig.HOLD)) < 1) →
      (_calculate_composite_signal e r v t).signal =
        maxSignal (scoreFor e r v t Sig.BUY) (scoreFor e r v t Sig.SELL)
          (scoreFor e r v t Sig.HOLD)) ∧
    (_calculate_composite_signal e r v t).strength =
      dirScore (scoreFor e r v t Sig.BUY) (scoreFor e r v t Sig.SELL)
        (scoreFor e r v t Sig.HOLD)
        (maxSignal (scoreFor e r v t Sig.BUY) (scoreFor e r v t Sig.SELL)
          (scoreFor e r v t Sig.HOLD)) := by
  refine ⟨dirScore_maxSignal_ge _ _ _, ?_, ?_, ?_⟩
  · intro hcond
    simp only [_calculate_composite_signal, if_pos hcond]
  · intro hcond
    simp only [_calculate_composite_signal, if_neg hcond]
  · rfl

/-- Witness for C7: a lone weak BUY vote (weighted score 0.4 < 1.0) is
forced to HOLD while the strength keeps the score. -/
theorem composite_activation_threshold_witness :
    (_calculate_composite_signal ⟨Sig.BUY, 1, []⟩ ⟨Sig.HOLD, 0, []⟩
      ⟨Sig.NEUTRAL, 0, []⟩ ⟨Sig.HOLD, 0, []⟩).signal = Dir3.HOLD := by
  have h := (composite_activation_threshold ⟨Sig.BUY, 1, []⟩ ⟨Sig.HOLD, 0, []⟩
    ⟨Sig.NEUTRAL, 0, []⟩ ⟨Sig.HOLD, 0, []⟩).2.1
  apply h
  constructor
  · simp [maxSignal, scoreFor, bucketScore, WEIGHT_EMA_CROSSOVER,
      WEIGHT_RSI_CONFIRMATION, WEIGHT_VOLUME_CONFIRMATION, WEIGHT_TREND_STRENGTH]
    norm_num
    decide
  · simp [maxSignal, dirScore, scoreFor, bucketScore, WEIGHT_EMA_CROSSOVER,
      WEIGHT_RSI_CONFIRMATION, WEIGHT_VOLUME_CONFIRMATION, WEIGHT_TREND_STRENGTH]
    norm_num [dirScore]

/-- C2 counterexample: with a BUY composite signal, `current_price = 100`,
`atr = 0.001`, `support = 50`, `resistance = 150`, the returned (rounded)
levels are `stop_loss = round(99.998, 2) = 100.0` and
`take_profit = round(100.004, 2) = 100.0`, so neither
`stop_loss < current_price` nor `current_price < take_profit` holds: the
final `round(_, 2)` can collapse the strict ordering whenever the ATR stop
distance is below the rounding granularity. -/
theorem risk_levels_strict_order_fails :
    ¬ ((_calculate_risk_levels 100 (1/1000) 50 150 Dir3.BUY).stop_loss < 100 ∧
       (100 : ℚ) < (_calculate_risk_levels 100 (1/1000) 50 150 Dir3.BUY).take_profit) := by
  have hsl : (_calculate_risk_levels 100 (1/1000) 50 150 Dir3.BUY).stop_loss = 100 := by
    simp only [_calculate_risk_levels, _calculate_risk_levels_raw,
      STOP_LOSS_ATR_MULTIPLIER, TAKE_PROFIT_RATIO]
    rw [show max ((100:ℚ) - 1/1000 * 2) (50 * (99/100)) = 100 - 1/1000 * 2 from
      max_eq_left (by norm_num)]
    norm_num [round2, roundHalfEvenInt]
  have htp : (_calculate_risk_levels 100 (1/1000) 50 150 Dir3.BUY).take_profit = 100 := by
    simp only [_calculate_risk_levels, _calculate_risk_levels_raw,
      STOP_LOSS_ATR_MULTIPLIER, TAKE_PROFIT_RATIO]
    norm_num [round2, roundHalfEvenInt]
  intro hcl
  rw [hsl] at hcl
  exact absurd hcl.1 (by norm_num)

/-- C2 (amended): before the final rounding, and provided the ATR stop
distance is positive and the support/resistance guard levels lie on the
correct side of the price (`support·0.99 < price < resistance·1.01`), the
raw levels satisfy the direction invariant: for BUY
`stop_loss < price < take_profit`, for SELL
`take_profit < price < stop_loss`.  The rounded (returned) values can tie
with the price when the ATR is below the rounding granularity, as the
counterexample shows. -/
theorem risk_levels_raw_direction_invariant (price atr support resistance : ℚ)
    (hatr : 0 < atr) (hsup : support * (99/100) < price)
    (hres : price < resistance * (101/100)) :
    ((_calculate_risk_levels_raw price atr support resistance Dir3.BUY).stop_loss < price ∧
      price < (_calculate_risk_levels_raw price atr support resistance Dir3.BUY).take_profit) ∧
    ((_calculate_risk_levels_raw price atr support resistance Dir3.SELL).take_profit < price ∧
      price < (_calculate_risk_levels_raw price atr support resistance Dir3.SELL).stop_loss) := by
  have hdist : 0 < atr * STOP_LOSS_ATR_MULTIPLIER := by
    rw [STOP_LOSS_ATR_MULTIPLIER]
    positivity
  have htpr : 0 < atr * STOP_LOSS_ATR_MULTIPLIER * TAKE_PROFIT_RATIO := by
    rw [ TAKE_PROFIT_RATIO]
    positivity
  simp only [_calculate_risk_levels_raw]
  refine ⟨⟨max_lt (by linarith) hsup, by linarith⟩, by linarith, lt_min (by linarith) hres⟩

/-- Witness for the amended C2 at `price = 100`, `atr = 1`,
`support = 90`, `resistance = 110`. -/
theorem risk_levels_raw_direction_invariant_witness :
    ((_calculate_risk_levels_raw 100 1 90 110 Dir3.BUY).stop_loss < 100 ∧
      (100:ℚ) < (_calculate_risk_levels_raw 100 1 90 110 Dir3.BUY).take_profit) ∧
    ((_calculate_risk_levels_raw 100 1 90 110 Dir3.SELL).take_profit < 100 ∧
      (100:ℚ) < (_calculate_risk_levels_raw 100 1 90 110 Dir3.SELL).stop_loss) :=
  risk_levels_raw_direction_invariant 100 1 90 110
    (by norm_num) (by norm_num) (by norm_num)

/-- C10: every numeric field of the returned risk record is the 2-decimal
rounding of its unrounded counterpart, hence an exact integer multiple of
0.01. -/
theorem risk_levels_rounded_to_cents (price atr support resistance : ℚ) (sig : Dir3) :
    ((_calculate_risk_levels price atr support resistance sig).stop_loss =
        round2 (_calculate_risk_levels_raw price atr support resistance sig).stop_loss ∧
      (_calculate_risk_levels price atr support resistance sig).take_profit =
        round2 (_calculate_risk_levels_raw price atr support resistance sig).take_profit ∧
      (_calculate_risk_levels price atr support resistance sig).risk_amount =
        round2 (_calculate_risk_levels_raw price atr support resistance sig).risk_amount ∧
      (_calculate_risk_levels price atr support resistance sig).reward_amount =
        round2 (_calculate_risk_levels_raw price atr support resistance sig).reward_amount ∧
      (_calculate_risk_levels price atr support resistance sig).risk_reward_ratio =
        round2 (_calculate_risk_levels_raw price atr support resistance sig).risk_reward_ratio ∧
      (_calculate_risk_levels price atr support resistance sig).atr_value =
        round2 (_calculate_risk_levels_raw price atr support resistance sig).atr_value) ∧
    ((∃ k : ℤ, (_calculate_risk_levels price atr support resistance sig).stop_loss = (k : ℚ) / 100) ∧
      (∃ k : ℤ, (_calculate_risk_levels price atr support resistance sig).take_profit = (k : ℚ) / 100) ∧
      (∃ k : ℤ, (_calculate_risk_levels price atr support resistance sig).risk_amount = (k : ℚ) / 100) ∧
      (∃ k : ℤ, (_calculate_risk_levels price atr support resistance sig).reward_amount = (k : ℚ) / 100) ∧
      (∃ k : ℤ, (_calculate_risk_levels price atr support resistance sig).risk_reward_ratio = (k : ℚ) / 100) ∧
      (∃ k : ℤ, (_calculate_risk_levels price atr support resistance sig).atr_value = (k : ℚ) / 100)) := by
  refine ⟨⟨rfl, rfl, rfl, rfl, rfl, rfl⟩, ⟨_, rfl⟩, ⟨_, rfl⟩, ⟨_, rfl⟩, ⟨_, rfl⟩, ⟨_, rfl⟩, ⟨_, rfl⟩⟩

/-- C3 counterexample: on an input that fails indicator calculation (the
empty bar series), two calls at different wall-clock times return different
records: the error signal embeds `pd.Timestamp.now()` as its `timestamp`
field. -/
theorem generate_signal_not_deterministic_on_error :
    generate_signal 0 [] ≠ generate_signal 1 [] := by
  intro hcl
  have htime := congrArg FinalSignal.timestamp hcl
  simp only [generate_signal, calculate_all_indicators, _create_error_signal] at htime
  exact absurd htime (by norm_num)

/-- C3 (amended): for identical bar series and parameters the two returned
records agree on every field except `timestamp`; whenever the indicator
engine succeeds (the series is non-empty) the records are identical in
every field.  Only the error path differs, because `_create_error_signal`
stamps the record with the wall-clock time of the call. -/
theorem generate_signal_deterministic_amended (now1 now2 : ℚ) (bars : List Bar) :
    eqExceptTimestamp (generate_signal now1 bars) (generate_signal now2 bars) ∧
    ((calculate_all_indicators bars).isSome = true →
      generate_signal now1 bars = generate_signal now2 bars) := by
  constructor
  · cases h : calculate_all_indicators bars <;>
      simp [generate_signal, h, eqExceptTimestamp, _create_error_signal]
  · intro hs
    cases h : calculate_all_indicators bars with
    | none => rw [h] at hs; simp at hs
    | some snap => simp [generate_signal, h]

/-- Witness for the amended C3 on a concrete one-bar series (indicator
calculation succeeds, so the two runs agree on every field). -/
theorem generate_signal_deterministic_amended_witness :
    eqExceptTimestamp (generate_signal 0 [⟨0, 1, 1, 1, 1, 1⟩])
        (generate_signal 7 [⟨0, 1, 1, 1, 1, 1⟩]) ∧
      generate_signal 0 [⟨0, 1, 1, 1, 1, 1⟩] = generate_signal 7 [⟨0, 1, 1, 1, 1, 1⟩] := by
  have h := generate_signal_deterministic_amended 0 7 [⟨0, 1, 1, 1, 1, 1⟩]
  exact ⟨h.1, h.2 rfl⟩

/-- C9: whenever the indicator engine fails (`calculate_all_indicators`
returns no data), `generate_signal` returns the structured error record:
direction `ERROR`, the error description, and the human-readable
recommendation; the embedding is a total function, so no exception escapes
this boundary. -/
theorem error_signal_on_indicator_failure (now : ℚ) (bars : List Bar)
    (h : calculate_all_indicators bars = none) :
    (generate_signal now bars).signal = SigE.ERROR ∧
    (generate_signal now bars).error = some ("Failed to calculate indicators") ∧
    (generate_signal now bars).recommendation = Recommendation.unableToGenerate := by
  simp [generate_signal, h, _create_error_signal]

/-- Witness for C9 at the empty bar series. -/
theorem error_signal_on_indicator_failure_witness :
    (generate_signal 0 []).signal = SigE.ERROR ∧
    (generate_signal 0 []).error = some ("Failed to calculate indicators") ∧
    (generate_signal 0 []).recommendation = Recommendation.unableToGenerate :=
  error_signal_on_indicator_failure 0 [] rfl

/-- C6: with at least two points in both EMA series (previous value at
index `length - 2`, current at `length - 1`), the crossover is BULLISH
exactly when the short EMA was ≤ the long and is now >, BEARISH exactly
when it was ≥ and is now <, NONE otherwise; the strength is
`min(current separation percent, 5.0)` on a crossover and 0 when NONE.
With fewer than two points in either series the result is NONE with
strength 0. -/
theorem detect_ema_crossover_characterization (emaShort emaLong : List ℚ) :
    ((emaShort.length < 2 ∨ emaLong.length < 2) →
      (detect_ema_crossover emaShort emaLong).crossover = Cross.NONE ∧
      (detect_ema_crossover emaShort emaLong).signal_strength = 0) ∧
    (2 ≤ emaShort.length → 2 ≤ emaLong.length →
      (((detect_ema_crossover emaShort emaLong).crossover = Cross.BULLISH ↔
        (emaShort.getD (emaShort.length - 2) 0 ≤ emaLong.getD (emaLong.length - 2) 0 ∧
          emaLong.getD (emaLong.length - 1) 0 < emaShort.getD (emaShort.length - 1) 0)) ∧
      ((detect_ema_crossover emaShort emaLong).crossover = Cross.BEARISH ↔
        (emaLong.getD (emaLong.length - 2) 0 ≤ emaShort.getD (emaShort.length - 2) 0 ∧
          emaShort.getD (emaShort.length - 1) 0 < emaLong.getD (emaLong.length - 1) 0)) ∧
      ((detect_ema_crossover emaShort emaLong).crossover = Cross.NONE ↔
        (¬ (emaShort.getD (emaShort.length - 2) 0 ≤ emaLong.getD (emaLong.length - 2) 0 ∧
            emaLong.getD (emaLong.length - 1) 0 < emaShort.getD (emaShort.length - 1) 0) ∧
          ¬ (emaLong.getD (emaLong.length - 2) 0 ≤ emaShort.getD (emaShort.length - 2) 0 ∧
            emaShort.getD (emaShort.length - 1) 0 < emaLong.getD (emaLong.length - 1) 0))) ∧
      (detect_ema_crossover emaShort emaLong).signal_strength =
        (if (emaShort.getD (emaShort.length - 2) 0 ≤ emaLong.getD (emaLong.length - 2) 0 ∧
              emaLong.getD (emaLong.length - 1) 0 < emaShort.getD (emaShort.length - 1) 0) ∨
            (emaLong.getD (emaLong.length - 2) 0 ≤ emaShort.getD (emaShort.length - 2) 0 ∧
              emaShort.getD (emaShort.length - 1) 0 < emaLong.getD (emaLong.length - 1) 0) then
          min (|emaShort.getD (emaShort.length - 1) 0 - emaLong.getD (emaLong.length - 1) 0| /
            emaLong.getD (emaLong.length - 1) 0 * 100) 5
        else 0))) := by
  constructor
  · intro h
    unfold detect_ema_crossover
    rw [if_pos h]
    exact ⟨rfl, rfl⟩
  · intro h1 h2
    have hnot : ¬ (emaShort.length < 2 ∨ emaLong.length < 2) := by omega
    simp only [detect_ema_crossover]
    rw [if_neg hnot]
    by_cases hc1 : emaShort.getD (emaShort.length - 2) 0 ≤ emaLong.getD (emaLong.length - 2) 0 ∧
        emaLong.getD (emaLong.length - 1) 0 < emaShort.getD (emaShort.length - 1) 0
    · rw [if_pos hc1, if_pos (Or.inl hc1)]
      refine ⟨⟨fun _ => hc1, fun _ => rfl⟩, ?_, ?_, rfl⟩
      · constructor
        · intro hfalse
          simp at hfalse
        · intro hcond2
          exact absurd (lt_trans hc1.2 hcond2.2) (lt_irrefl _)
      · constructor
        · intro hfalse
          simp at hfalse
        · intro hcond
          exact absurd hc1 hcond.1
    · rw [if_neg hc1]
      by_cases hc2 : emaLong.getD (emaLong.length - 2) 0 ≤ emaShort.getD (emaShort.length - 2) 0 ∧
          emaShort.getD (emaShort.length - 1) 0 < emaLong.getD (emaLong.length - 1) 0
      · rw [if_pos hc2, if_pos (Or.inr hc2)]
        refine ⟨?_, ⟨fun _ => hc2, fun _ => rfl⟩, ?_, rfl⟩
        · constructor
          · intro hfalse
            simp at hfalse
          · intro hcond1
            exact absurd hcond1 hc1
        · constructor
          · intro hfalse
            simp at hfalse
          · intro hcond
            exact absurd hc2 hcond.2
      · rw [if_neg hc2, if_neg (by tauto)]
        refine ⟨?_, ?_, ⟨fun _ => ⟨hc1, hc2⟩, fun _ => rfl⟩, rfl⟩
        · constructor
          · intro hfalse
            simp at hfalse
          · intro hcond1
            exact absurd hcond1 hc1
        · constructor
          · intro hfalse
            simp at hfalse
          · intro hcond2
            exact absurd hcond2 hc2

/-- Witness for C6: `[1, 3]` against `[2, 2]` produces a bullish
crossover, and a short second input yields NONE with strength 0. -/
theorem detect_ema_crossover_characterization_witness :
    (detect_ema_crossover [1, 3] [2, 2]).crossover = Cross.BULLISH ∧
    (detect_ema_crossover [1, 3] []).crossover = Cross.NONE ∧
    (detect_ema_crossover [1, 3] []).signal_strength = 0 := by
  have h2 := (detect_ema_crossover_characterization [1, 3] [2, 2]).2
    (by simp) (by simp)
  have h1 := (detect_ema_crossover_characterization [1, 3] []).1 (by simp)
  refine ⟨h2.1.mpr ?_, h1.1, h1.2⟩
  norm_num [List.getD_cons_zero, List.getD_cons_succ]

end GoldBot
